import Mathlib

/-!
Shallow embedding of src/driver/gator_trace_power.c (the GATOR_CPU_FREQ_SUPPORT
branch): the power-event telemetry collector.  Machine `ulong`/`long` values are
modelled as `Nat`, with an explicit `% 2 ^ 64` where the 64-bit multiplication
`frequency * 1000L` happens.  Per-CPU storage is a function from physical CPU id
to the stored value; emitted samples are collected into lists, in program order.
-/

namespace Gator

/-- Index of the single gated CPU event class, from `enum { POWER_CPU_FREQ, POWER_TOTAL }`. -/
def POWER_CPU_FREQ : Nat := 0

/-- Number of entries of the per-class arrays, from the same enum. -/
def POWER_TOTAL : Nat := 1

/-- Platform facts that decide the `implements_wfi()` macro: whether the build is
an `__arm__` build, and whether the machine is the omap3 beagle board. -/
structure Platform where
  is_arm : Bool
  machine_is_omap3_beagle : Bool
deriving Repr, DecidableEq

/-- The `implements_wfi()` macro: `!machine_is_omap3_beagle()` on `__arm__`,
`false` on every other build. -/
def implements_wfi (p : Platform) : Bool :=
  if p.is_arm then !p.machine_is_omap3_beagle else false

/-- An `__arm__` platform other than the beagle board: `implements_wfi()` holds. -/
def armPlatform : Platform := ⟨true, false⟩

/-- The omap3 beagle board: `implements_wfi()` is false. -/
def beaglePlatform : Platform := ⟨true, true⟩

/-- The file-scope mutable globals of the translation unit that hold enablement
flags and keys: `power_cpu_enabled`, `power_cpu_key` (arrays of size
`POWER_TOTAL`), `power_gpu_enabled`, `power_gpu_key`, `power_cpu_cores`. -/
structure Registry where
  power_cpu_enabled : List Bool
  power_cpu_key : List Nat
  power_gpu_enabled : Bool
  power_gpu_key : Nat
  power_cpu_cores : Nat
deriving Repr, DecidableEq

/-- The C static zero-initialization of the globals at module load. -/
def staticRegistry : Registry :=
  ⟨List.replicate POWER_TOTAL false, List.replicate POWER_TOTAL 0, false, 0, 0⟩

/-- Reading `power_cpu_enabled[POWER_CPU_FREQ]` as a truth value. -/
def cpuFreqEnabled (r : Registry) : Bool :=
  r.power_cpu_enabled.getD POWER_CPU_FREQ false

/-- The process-wide key allocator `gator_events_get_key()`: modelled as a
counter returning the current value and the advanced counter. -/
def gator_events_get_key (next : Nat) : Nat × Nat := (next, next + 1)

/-- The `gator_trace_power_init` routine: stores `nr_cpu_ids` into
`power_cpu_cores`, then for each `i < POWER_TOTAL` clears `power_cpu_enabled[i]`
and assigns `power_cpu_key[i]` from the key allocator.  Returns the advanced
allocator counter with the updated registry.  Note the routine never touches
`power_gpu_enabled` or `power_gpu_key`. -/
def gator_trace_power_init (nr_cpu_ids : Nat) (next : Nat) (r : Registry) :
    Nat × Registry :=
  let r0 := { r with power_cpu_cores := nr_cpu_ids }
  (List.range POWER_TOTAL).foldl
    (fun p i =>
      let k := (gator_events_get_key p.1).1
      let nx := (gator_events_get_key p.1).2
      (nx, { p.2 with
              power_cpu_enabled := p.2.power_cpu_enabled.set i false,
              power_cpu_key := p.2.power_cpu_key.set i k }))
    (next, r0)

/-- The three tracepoints the lifecycle registers with the event source. -/
inductive Tracepoint
  | cpu_frequency
  | gpu_frequency
  | cpu_idle
deriving Repr, DecidableEq

/-- A registration-surface action performed against the event source, in
program order: a successful `GATOR_REGISTER_TRACE` or a `GATOR_UNREGISTER_TRACE`. -/
inductive TraceAction
  | register (t : Tracepoint)
  | unregister (t : Tracepoint)
deriving Repr, DecidableEq

/-- The tracepoints successfully registered, in order, within an action log. -/
def registeredOf (acts : List TraceAction) : List Tracepoint :=
  acts.filterMap fun a =>
    match a with
    | .register t => some t
    | .unregister _ => none

/-- The tracepoints unregistered, in order, within an action log. -/
def unregisteredOf (acts : List TraceAction) : List Tracepoint :=
  acts.filterMap fun a =>
    match a with
    | .register _ => none
    | .unregister t => some t

/-- State of the fallback polling machinery: whether `freq_wake_up_timer` is
armed, whether the delayed work item `freq_work` is pending on the workqueue,
and how many poller passes (`wq_freq_handler` bodies) have executed. -/
structure PollState where
  timerArmed : Bool
  workPending : Bool
  cycles : Nat
deriving Repr, DecidableEq

/-- Environment of one `gator_trace_power_start` call: which of the up to three
`GATOR_REGISTER_TRACE` calls would fail, and the present-CPU set. -/
structure StartEnv where
  fail_cpu_frequency : Bool
  fail_gpu_frequency : Bool
  fail_cpu_idle : Bool
  present : List Nat
deriving Repr

/-- Result of `gator_trace_power_start`: the return code, the action log against
the event source, and the resulting globals (registry, per-CPU
`idle_prev_state`, poll machinery state). -/
structure StartOut where
  ret : Int
  actions : List TraceAction
  reg : Registry
  idle_prev_state : Nat → Nat
  poll : PollState

/-- The `fail_gpufreq_set_exit` label: unregister `cpu_frequency` when it had
been registered, then fall through to `fail_cpu_frequency_exit`. -/
def fail_gpufreq_set_exit (r : Registry) (acts : List TraceAction) :
    List TraceAction :=
  acts ++ (if cpuFreqEnabled r then [TraceAction.unregister .cpu_frequency] else [])

/-- The `fail_cpu_idle_exit` label: unregister `gpu_frequency` when it had been
registered, then fall through to `fail_gpufreq_set_exit`. -/
def fail_cpu_idle_exit (r : Registry) (acts : List TraceAction) :
    List TraceAction :=
  fail_gpufreq_set_exit r
    (acts ++ (if r.power_gpu_enabled then [TraceAction.unregister .gpu_frequency] else []))

/-- The `gator_trace_power_start` routine.  Registers `cpu_frequency` when its
flag is enabled, `gpu_frequency` when its flag is enabled, then `cpu_idle`
unconditionally; on a registration failure it takes the corresponding goto
label and returns `-1`.  On success it schedules `freq_work` immediately
(delay 0), sets up the (unarmed) deferrable wake-up timer, resets
`idle_prev_state` to `0` for every present CPU, and returns `0`.  The registry
is returned unchanged: the routine writes none of the enablement globals. -/
def gator_trace_power_start (env : StartEnv) (r : Registry) (prev : Nat → Nat)
    (ps : PollState) : StartOut :=
  if cpuFreqEnabled r && env.fail_cpu_frequency then
    ⟨-1, [], r, prev, ps⟩
  else
    let acts1 := if cpuFreqEnabled r then [TraceAction.register .cpu_frequency] else []
    if r.power_gpu_enabled && env.fail_gpu_frequency then
      ⟨-1, fail_gpufreq_set_exit r acts1, r, prev, ps⟩
    else
      let acts2 := acts1 ++ (if r.power_gpu_enabled then [TraceAction.register .gpu_frequency] else [])
      if env.fail_cpu_idle then
        ⟨-1, fail_cpu_idle_exit r acts2, r, prev, ps⟩
      else
        ⟨0, acts2 ++ [TraceAction.register .cpu_idle], r,
         fun c => if c ∈ env.present then 0 else prev c,
         { ps with workPending := true, timerArmed := false }⟩

/-- The `gator_trace_power_stop` routine: unregister `cpu_frequency` when its
flag is enabled, `gpu_frequency` when its flag is enabled, `cpu_idle`
unconditionally; `del_timer_sync` the wake-up timer (timer disarmed, pending
work untouched); clear `power_cpu_enabled[i]` for `i < POWER_TOTAL`.  Note it
never clears `power_gpu_enabled` and does not cancel the `freq_work` item. -/
def gator_trace_power_stop (r : Registry) (ps : PollState) :
    List TraceAction × Registry × PollState :=
  let acts := (if cpuFreqEnabled r then [TraceAction.unregister .cpu_frequency] else [])
    ++ (if r.power_gpu_enabled then [TraceAction.unregister .gpu_frequency] else [])
    ++ [TraceAction.unregister .cpu_idle]
  let ps1 := { ps with timerArmed := false }
  let enabled1 := (List.range POWER_TOTAL).foldl (fun l i => l.set i false)
    r.power_cpu_enabled
  (acts, { r with power_cpu_enabled := enabled1 }, ps1)

/-- A sample handed to `marshal_event_single`/`marshal_event_single64`:
physical CPU, class key, value. -/
structure Sample where
  cpu : Nat
  key : Nat
  value : Nat
deriving Repr, DecidableEq

/-- The 64-bit computation `frequency * 1000L` of the probes and of the
poller pass, on an LP64 build (`long` is 64 bits). -/
def freq_scale (frequency : Nat) : Nat := (frequency * 1000) % 2 ^ 64

/-- The `cpu_frequency` probe body: translate the logical CPU to the physical
CPU, then marshal one sample tagged with `power_cpu_key[POWER_CPU_FREQ]` and
value `frequency * 1000L`.  Nothing in the body reads an enablement flag. -/
def probe_cpu_frequency (l2p : Nat → Nat) (r : Registry)
    (frequency cpu : Nat) : List Sample :=
  let pcpu := l2p cpu
  [⟨pcpu, r.power_cpu_key.getD POWER_CPU_FREQ 0, freq_scale frequency⟩]

/-- The `gpu_frequency` probe body: marshal one sample on the current physical
CPU tagged with `power_gpu_key` and value `frequency * 1000L`.  Nothing in the
body reads an enablement flag. -/
def probe_gpu_frequency (pcpu : Nat) (r : Registry) (frequency : Nat) :
    List Sample :=
  [⟨pcpu, r.power_gpu_key, freq_scale frequency⟩]

/-- The `cpu_idle` probe body: translate the logical CPU, return early when the
state equals `idle_prev_state` for that CPU, otherwise marshal the idle
transition when `implements_wfi()` holds and store the new state.  Returns the
updated per-CPU store and the list (empty or singleton) of forwarded
`(physicalCpu, state)` idle transitions. -/
def probe_cpu_idle (p : Platform) (l2p : Nat → Nat) (prev : Nat → Nat)
    (state cpu : Nat) : (Nat → Nat) × List (Nat × Nat) :=
  if state = prev (l2p cpu) then
    (prev, [])
  else
    (fun c => if c = l2p cpu then state else prev c,
     if implements_wfi p then [(l2p cpu, state)] else [])

/-- Delivery of a finite sequence of `cpu_idle` events `(state, logicalCpu)` to
the probe, threading the per-CPU `idle_prev_state` store; returns the final
store and the concatenated forwarded transitions. -/
def runIdle (p : Platform) (l2p : Nat → Nat) :
    (Nat → Nat) → List (Nat × Nat) → (Nat → Nat) × List (Nat × Nat)
  | prev, [] => (prev, [])
  | prev, (st, cpu) :: rest =>
      let r1 := probe_cpu_idle p l2p prev st cpu
      let r2 := runIdle p l2p r1.1 rest
      (r2.1, r1.2 ++ r2.2)

/-- Forwarding as the specification words it, for comparison with `runIdle`:
a transition is forwarded exactly when the newly observed state differs from
the stored last-observed state for that same CPU, and the store is then
updated to the new state. -/
def idleForwardSpec (l2p : Nat → Nat) :
    (Nat → Nat) → List (Nat × Nat) → List (Nat × Nat)
  | _, [] => []
  | prev, (st, cpu) :: rest =>
      if st = prev (l2p cpu) then idleForwardSpec l2p prev rest
      else (l2p cpu, st) ::
        idleForwardSpec l2p (fun c => if c = l2p cpu then st else prev c) rest

/-- Environment the poller pass reads: present CPUs (`for_each_present_cpu`
order), the `cpu_online` predicate, and `cpufreq_cpu_get` yielding the policy
field `cur` when a policy is available. -/
structure FreqEnv where
  present : List Nat
  cpu_online : Nat → Bool
  cpufreq_cpu_get : Nat → Option Nat

/-- The per-CPU loop body of `wq_freq_handler` over a list of CPUs: an online
CPU with an available policy marshals `policy->cur * 1000L`, an online CPU
without a policy marshals nothing, an offline CPU marshals value `0`. -/
def wq_freq_pass (env : FreqEnv) (key : Nat) : List Nat → List Sample
  | [] => []
  | cpu :: rest =>
      (if env.cpu_online cpu then
        match env.cpufreq_cpu_get cpu with
        | some cur => [⟨cpu, key, freq_scale cur⟩]
        | none => []
      else
        [⟨cpu, key, 0⟩]) ++ wq_freq_pass env key rest

/-- The `wq_freq_handler` work body: one pass over all present CPUs, then
`mod_timer(&freq_wake_up_timer, jiffies + msecs_to_jiffies(500))`.  Returns
the emitted samples and the re-arm delay in milliseconds. -/
def wq_freq_handler (env : FreqEnv) (key : Nat) : List Sample × Nat :=
  (wq_freq_pass env key env.present, 500)

/-- Execution of the pending `freq_work` item by the workqueue: the item stops
being pending, the `wq_freq_handler` body runs (one more poller cycle, emitting
its samples) and its trailing `mod_timer` re-arms the wake-up timer. -/
def run_freq_work (env : FreqEnv) (key : Nat) (ps : PollState) :
    PollState × List Sample :=
  (⟨true, false, ps.cycles + 1⟩, (wq_freq_handler env key).1)

/-- The `freq_wake_up_handler` timer callback:
`schedule_delayed_work(&freq_work, 0)`. -/
def freq_wake_up_handler (ps : PollState) : PollState :=
  { ps with workPending := true }

/-- Failure condition of `gator_trace_power_start`: some executed
`GATOR_REGISTER_TRACE` call fails. -/
def startFails (env : StartEnv) (r : Registry) : Bool :=
  (cpuFreqEnabled r && env.fail_cpu_frequency)
    || (r.power_gpu_enabled && env.fail_gpu_frequency)
    || env.fail_cpu_idle

/-- Helper: `gator_trace_power_start` returns the registry unchanged on every
control path, reflecting that the routine writes none of the enablement or key
globals. -/
lemma start_reg_eq (env : StartEnv) (r : Registry) (prev : Nat → Nat)
    (ps : PollState) : (gator_trace_power_start env r prev ps).reg = r := by
  unfold gator_trace_power_start
  split_ifs <;> rfl

/-- C1: the quiescence claim fails on the code.  Run from the state reached by a
successful `gator_trace_power_start` (whose `schedule_delayed_work(&freq_work, 0)`
leaves the work item pending): `gator_trace_power_stop` only performs
`del_timer_sync` on the wake-up timer and never cancels `freq_work`, so after
`stop` returns the work item is still pending, its execution performs one more
full poller pass (`cycles` increases), and its trailing `mod_timer` even re-arms
the supposedly cancelled timer. -/
theorem C1_pending_cycle_runs_after_stop :
    ((gator_trace_power_stop staticRegistry
        (gator_trace_power_start ⟨false, false, false, [0]⟩ staticRegistry
          (fun _ => 0) ⟨false, false, 0⟩).poll).2.2.workPending = true)
    ∧ ((run_freq_work ⟨[0], fun _ => true, fun _ => some 1000⟩ 5
        (gator_trace_power_stop staticRegistry
          (gator_trace_power_start ⟨false, false, false, [0]⟩ staticRegistry
            (fun _ => 0) ⟨false, false, 0⟩).poll).2.2).1.cycles
      = ((gator_trace_power_stop staticRegistry
          (gator_trace_power_start ⟨false, false, false, [0]⟩ staticRegistry
            (fun _ => 0) ⟨false, false, 0⟩).poll).2.2.cycles) + 1)
    ∧ ((run_freq_work ⟨[0], fun _ => true, fun _ => some 1000⟩ 5
        (gator_trace_power_stop staticRegistry
          (gator_trace_power_start ⟨false, false, false, [0]⟩ staticRegistry
            (fun _ => 0) ⟨false, false, 0⟩).poll).2.2).1.timerArmed = true) :=
  ⟨rfl, rfl, rfl⟩

/-- C4 counterexample: with the GPU class enabled, `gator_trace_power_stop`
leaves `power_gpu_enabled` set, contradicting that stop sets every enabled flag
to false. -/
theorem C4_counterexample :
    (gator_trace_power_stop ⟨[true], [5], true, 6, 4⟩ ⟨true, false, 0⟩).2.1.power_gpu_enabled
      = true := by
  decide

/-- C4 (amended): `gator_trace_power_stop` clears exactly the
`power_cpu_enabled` flags (all `POWER_TOTAL` of them) while leaving
`power_gpu_enabled` and both keys unchanged. -/
theorem C4_stop_clears_cpu_flags_keeps_keys (r : Registry) (ps : PollState)
    (h : r.power_cpu_enabled.length = POWER_TOTAL) :
    (gator_trace_power_stop r ps).2.1.power_cpu_enabled
      = List.replicate POWER_TOTAL false
    ∧ (gator_trace_power_stop r ps).2.1.power_gpu_enabled = r.power_gpu_enabled
    ∧ (gator_trace_power_stop r ps).2.1.power_cpu_key = r.power_cpu_key
    ∧ (gator_trace_power_stop r ps).2.1.power_gpu_key = r.power_gpu_key := by
  have h1 : r.power_cpu_enabled.length = 1 := h
  obtain ⟨b, hb⟩ := List.length_eq_one.mp h1
  refine ⟨?_, rfl, rfl, rfl⟩
  show (List.range POWER_TOTAL).foldl (fun l i => l.set i false) r.power_cpu_enabled
      = List.replicate POWER_TOTAL false
  rw [hb]
  rfl

/-- C4 witness: the amended stop theorem evaluated at a concrete registry. -/
theorem C4_stop_clears_cpu_flags_keeps_keys_witness :
    (gator_trace_power_stop ⟨[true], [5], true, 6, 4⟩ ⟨true, false, 0⟩).2.1.power_cpu_enabled
      = List.replicate POWER_TOTAL false
    ∧ (gator_trace_power_stop ⟨[true], [5], true, 6, 4⟩ ⟨true, false, 0⟩).2.1.power_gpu_enabled
      = true
    ∧ (gator_trace_power_stop ⟨[true], [5], true, 6, 4⟩ ⟨true, false, 0⟩).2.1.power_cpu_key
      = [5]
    ∧ (gator_trace_power_stop ⟨[true], [5], true, 6, 4⟩ ⟨true, false, 0⟩).2.1.power_gpu_key
      = 6 :=
  C4_stop_clears_cpu_flags_keeps_keys ⟨[true], [5], true, 6, 4⟩ ⟨true, false, 0⟩ (by decide)

/-- C5 counterexample: running `gator_trace_power_init` from the statically
zero-initialized globals with the allocator counter at 7 draws exactly the keys
`List.range' 7 1 = [7]` from the allocator, yet `power_gpu_key` ends up `0`,
which is not among them: the GpuFrequency class does not hold an
allocator-obtained key, and in particular no allocator-backed distinctness
holds for it. -/
theorem C5_counterexample :
    (gator_trace_power_init 4 7 staticRegistry).1 = 8
    ∧ (gator_trace_power_init 4 7 staticRegistry).2.power_gpu_key = 0
    ∧ (gator_trace_power_init 4 7 staticRegistry).2.power_gpu_key ∉
        List.range' 7 ((gator_trace_power_init 4 7 staticRegistry).1 - 7) := by
  decide

/-- C5 (amended): after `gator_trace_power_init` runs once on the statically
zero-initialized globals, the CpuFrequency class holds the one key drawn from
the process-wide allocator (the counter advances by exactly `POWER_TOTAL = 1`),
every enabled flag is false (the GPU one from static initialization), the
GpuFrequency key is not assigned and retains its static value `0`, and neither
`gator_trace_power_start` nor `gator_trace_power_stop` reassigns any key. -/
theorem C5_init_allocates_cpu_key_only (nr a : Nat) (ps : PollState)
    (env : StartEnv) (prev : Nat → Nat) :
    (gator_trace_power_init nr a staticRegistry).1 = a + 1
    ∧ (gator_trace_power_init nr a staticRegistry).2.power_cpu_key = [a]
    ∧ (gator_trace_power_init nr a staticRegistry).2.power_cpu_enabled = [false]
    ∧ (gator_trace_power_init nr a staticRegistry).2.power_gpu_enabled = false
    ∧ (gator_trace_power_init nr a staticRegistry).2.power_gpu_key = 0
    ∧ (gator_trace_power_start env (gator_trace_power_init nr a staticRegistry).2 prev ps).reg
        = (gator_trace_power_init nr a staticRegistry).2
    ∧ (gator_trace_power_stop (gator_trace_power_init nr a staticRegistry).2 ps).2.1.power_cpu_key
        = [a]
    ∧ (gator_trace_power_stop (gator_trace_power_init nr a staticRegistry).2 ps).2.1.power_gpu_key
        = 0 :=
  ⟨rfl, rfl, rfl, rfl, rfl, start_reg_eq env _ prev ps, rfl, rfl⟩

/-- C7 counterexample: with both enabled flags false, the `cpu_frequency` and
`gpu_frequency` probe bodies still forward a sample, contradicting that a hook
adapter forwards only when its enabled flag is true at invocation time. -/
theorem C7_counterexample :
    cpuFreqEnabled ⟨[false], [5], false, 6, 4⟩ = false
    ∧ Registry.power_gpu_enabled ⟨[false], [5], false, 6, 4⟩ = false
    ∧ probe_cpu_frequency (fun c => c) ⟨[false], [5], false, 6, 4⟩ 100 3
        = [⟨3, 5, 100000⟩]
    ∧ probe_gpu_frequency 0 ⟨[false], [5], false, 6, 4⟩ 200 = [⟨0, 6, 200000⟩] := by
  decide

/-- C7 (amended): the frequency hook adapters forward unconditionally, reading
no enabled flag; enablement gates only registration, in that a failure-free
`gator_trace_power_start` registers a frequency tracepoint exactly when the
corresponding flag is enabled. -/
theorem C7_probes_forward_unconditionally
    (l2p : Nat → Nat) (r : Registry) (f cpu pcpu : Nat)
    (env : StartEnv) (prev : Nat → Nat) (ps : PollState)
    (h1 : env.fail_cpu_frequency = false) (h2 : env.fail_gpu_frequency = false)
    (h3 : env.fail_cpu_idle = false) :
    probe_cpu_frequency l2p r f cpu
      = [⟨l2p cpu, r.power_cpu_key.getD POWER_CPU_FREQ 0, freq_scale f⟩]
    ∧ probe_gpu_frequency pcpu r f = [⟨pcpu, r.power_gpu_key, freq_scale f⟩]
    ∧ (TraceAction.register .cpu_frequency
        ∈ (gator_trace_power_start env r prev ps).actions ↔ cpuFreqEnabled r = true)
    ∧ (TraceAction.register .gpu_frequency
        ∈ (gator_trace_power_start env r prev ps).actions
        ↔ r.power_gpu_enabled = true) := by
  refine ⟨rfl, rfl, ?_, ?_⟩ <;>
    cases hc : cpuFreqEnabled r <;> cases hg : r.power_gpu_enabled <;>
      simp [gator_trace_power_start, h1, h2, h3, hc, hg]

/-- C7 witness: the amended probe theorem evaluated at concrete inputs. -/
theorem C7_probes_forward_unconditionally_witness :
    probe_cpu_frequency (fun c => c) ⟨[true], [5], true, 6, 4⟩ 100 3
      = [⟨3, 5, freq_scale 100⟩]
    ∧ probe_gpu_frequency 0 ⟨[true], [5], true, 6, 4⟩ 100
      = [⟨0, 6, freq_scale 100⟩]
    ∧ (TraceAction.register .cpu_frequency
        ∈ (gator_trace_power_start ⟨false, false, false, [0]⟩
            ⟨[true], [5], true, 6, 4⟩ (fun _ => 0) ⟨false, false, 0⟩).actions
        ↔ cpuFreqEnabled ⟨[true], [5], true, 6, 4⟩ = true)
    ∧ (TraceAction.register .gpu_frequency
        ∈ (gator_trace_power_start ⟨false, false, false, [0]⟩
            ⟨[true], [5], true, 6, 4⟩ (fun _ => 0) ⟨false, false, 0⟩).actions
        ↔ Registry.power_gpu_enabled ⟨[true], [5], true, 6, 4⟩ = true) :=
  C7_probes_forward_unconditionally (fun c => c) ⟨[true], [5], true, 6, 4⟩ 100 3 0
    ⟨false, false, false, [0]⟩ (fun _ => 0) ⟨false, false, 0⟩ rfl rfl rfl

/-- Helper: on a platform with `implements_wfi()`, the transitions forwarded by
a run of the `cpu_idle` probe are exactly those the specification words demand:
forward when and only when the new state differs from the stored one. -/
lemma runIdle_forward_eq_spec (p : Platform) (hwfi : implements_wfi p = true)
    (l2p : Nat → Nat) :
    ∀ (prev : Nat → Nat) (evs : List (Nat × Nat)),
      (runIdle p l2p prev evs).2 = idleForwardSpec l2p prev evs := by
  intro prev evs
  induction evs generalizing prev with
  | nil => rfl
  | cons e rest ih =>
      obtain ⟨st, cpu⟩ := e
      by_cases hst : st = prev (l2p cpu) <;>
        simp [runIdle, idleForwardSpec, probe_cpu_idle, hst, hwfi, ih]

/-- Helper: the per-CPU `idle_prev_state` store evolves identically on every
platform; `implements_wfi()` only gates forwarding, not the bookkeeping. -/
lemma runIdle_fst_indep (p q : Platform) (l2p : Nat → Nat) :
    ∀ (prev : Nat → Nat) (evs : List (Nat × Nat)),
      (runIdle p l2p prev evs).1 = (runIdle q l2p prev evs).1 := by
  intro prev evs
  induction evs generalizing prev with
  | nil => rfl
  | cons e rest ih =>
      obtain ⟨st, cpu⟩ := e
      by_cases hst : st = prev (l2p cpu) <;>
        simp [runIdle, probe_cpu_idle, hst, ih]

/-- Helper: on a platform without `implements_wfi()`, no idle transition is
ever forwarded. -/
lemma runIdle_no_forward (p : Platform) (hwfi : implements_wfi p = false)
    (l2p : Nat → Nat) :
    ∀ (prev : Nat → Nat) (evs : List (Nat × Nat)),
      (runIdle p l2p prev evs).2 = [] := by
  intro prev evs
  induction evs generalizing prev with
  | nil => rfl
  | cons e rest ih =>
      obtain ⟨st, cpu⟩ := e
      by_cases hst : st = prev (l2p cpu) <;>
        simp [runIdle, probe_cpu_idle, hst, hwfi, ih]

/-- C2: whenever a `GATOR_REGISTER_TRACE` call inside `gator_trace_power_start`
fails, the routine returns `-1`, unregisters exactly the tracepoints it had
successfully registered, in strict reverse order of registration, and leaves
every enablement flag (the whole registry) unchanged. -/
theorem C2_start_failure_rollback (env : StartEnv) (r : Registry)
    (prev : Nat → Nat) (ps : PollState) (h : startFails env r = true) :
    (gator_trace_power_start env r prev ps).ret = -1
    ∧ unregisteredOf (gator_trace_power_start env r prev ps).actions
        = (registeredOf (gator_trace_power_start env r prev ps).actions).reverse
    ∧ (gator_trace_power_start env r prev ps).reg = r := by
  obtain ⟨fcf, fgf, fci, pres⟩ := env
  simp only [startFails] at h
  cases fcf <;> cases fgf <;> cases fci <;>
    cases hc : cpuFreqEnabled r <;> cases hg : r.power_gpu_enabled <;>
      simp_all [gator_trace_power_start, fail_cpu_idle_exit, fail_gpufreq_set_exit,
        registeredOf, unregisteredOf]

/-- C2 witness: rollback evaluated where both frequency classes are enabled and
the `cpu_idle` registration fails: both frequency tracepoints are unregistered,
GPU first (reverse of registration order), and the registry is untouched. -/
theorem C2_start_failure_rollback_witness :
    (gator_trace_power_start ⟨false, false, true, [0]⟩ ⟨[true], [5], true, 6, 4⟩
        (fun _ => 0) ⟨false, false, 0⟩).ret = -1
    ∧ unregisteredOf (gator_trace_power_start ⟨false, false, true, [0]⟩
        ⟨[true], [5], true, 6, 4⟩ (fun _ => 0) ⟨false, false, 0⟩).actions
      = (registeredOf (gator_trace_power_start ⟨false, false, true, [0]⟩
          ⟨[true], [5], true, 6, 4⟩ (fun _ => 0) ⟨false, false, 0⟩).actions).reverse
    ∧ (gator_trace_power_start ⟨false, false, true, [0]⟩ ⟨[true], [5], true, 6, 4⟩
        (fun _ => 0) ⟨false, false, 0⟩).reg = ⟨[true], [5], true, 6, 4⟩ :=
  C2_start_failure_rollback ⟨false, false, true, [0]⟩ ⟨[true], [5], true, 6, 4⟩
    (fun _ => 0) ⟨false, false, 0⟩ (by decide)

/-- C3: on a wfi-capable platform the `cpu_idle` probe forwards a transition
exactly when the newly observed state differs from the stored last-observed
state of that same physical CPU, stores the new state afterwards in every case,
agrees over every finite event sequence with the dedup filter the specification
words, and on the scenario 1, 1, 2, 2, 1 for CPU 2 (stores reset to 0 by start)
forwards exactly 1, 2, 1. -/
theorem C3_cpu_idle_dedup (l2p prev : Nat → Nat) (st cpu : Nat)
    (evs : List (Nat × Nat)) :
    ((probe_cpu_idle armPlatform l2p prev st cpu).2 = [(l2p cpu, st)]
      ↔ st ≠ prev (l2p cpu))
    ∧ ((probe_cpu_idle armPlatform l2p prev st cpu).2 = [] ↔ st = prev (l2p cpu))
    ∧ (probe_cpu_idle armPlatform l2p prev st cpu).1 (l2p cpu) = st
    ∧ (runIdle armPlatform l2p prev evs).2 = idleForwardSpec l2p prev evs
    ∧ (runIdle armPlatform (fun c => c) (fun _ => 0)
        [(1, 2), (1, 2), (2, 2), (2, 2), (1, 2)]).2 = [(2, 1), (2, 2), (2, 1)] := by
  refine ⟨?_, ?_, ?_, runIdle_forward_eq_spec armPlatform rfl l2p prev evs, by decide⟩ <;>
    by_cases hst : st = prev (l2p cpu) <;>
      simp [probe_cpu_idle, hst, implements_wfi, armPlatform]

/-- C8: on any platform whose `implements_wfi()` capability is unset (the
omap3 beagle board, or any non-arm build), a run of the `cpu_idle` probe keeps
the per-CPU `idle_prev_state` bookkeeping exactly as on a wfi-capable platform,
yet never forwards an idle transition to the sink. -/
theorem C8_no_wfi_tracks_without_forwarding (p : Platform) (l2p prev : Nat → Nat)
    (evs : List (Nat × Nat)) (c : Nat) (h : implements_wfi p = false) :
    (runIdle p l2p prev evs).2 = []
    ∧ (runIdle p l2p prev evs).1 c = (runIdle armPlatform l2p prev evs).1 c :=
  ⟨runIdle_no_forward p h l2p prev evs, by
    rw [runIdle_fst_indep p armPlatform l2p prev evs]⟩

/-- C8 witness: the no-forward theorem evaluated on the beagle board for the
sequence 1, 1, 2 on CPU 0. -/
theorem C8_no_wfi_tracks_without_forwarding_witness :
    (runIdle beaglePlatform (fun c => c) (fun _ => 0) [(1, 0), (1, 0), (2, 0)]).2 = []
    ∧ (runIdle beaglePlatform (fun c => c) (fun _ => 0) [(1, 0), (1, 0), (2, 0)]).1 0
        = (runIdle armPlatform (fun c => c) (fun _ => 0) [(1, 0), (1, 0), (2, 0)]).1 0 :=
  C8_no_wfi_tracks_without_forwarding beaglePlatform (fun c => c) (fun _ => 0)
    [(1, 0), (1, 0), (2, 0)] 0 rfl

/-- Helper: every sample emitted by the poller loop body belongs to a CPU of
the traversed list. -/
lemma mem_wq_pass_cpu (env : FreqEnv) (key : Nat) :
    ∀ (l : List Nat) (s : Sample), s ∈ wq_freq_pass env key l → s.cpu ∈ l := by
  intro l
  induction l with
  | nil => intro s hs; simp [wq_freq_pass] at hs
  | cons a rest ih =>
      intro s hs
      simp only [wq_freq_pass, List.mem_append] at hs
      rcases hs with hs | hs
      · have ha : s.cpu = a := by
          by_cases hon : env.cpu_online a
          · rcases hcg : env.cpufreq_cpu_get a with _ | cur
            · simp [hon, hcg] at hs
            · simp [hon, hcg] at hs
              simp [hs]
          · simp [hon] at hs; simp [hs]
        simp [ha]
      · exact List.mem_cons_of_mem a (ih s hs)

/-- Helper: a CPU outside the traversed list receives no sample from the
poller loop body. -/
lemma wq_pass_filter_not_mem (env : FreqEnv) (key c : Nat) :
    ∀ l, c ∉ l → (wq_freq_pass env key l).filter (fun s => s.cpu == c) = [] := by
  intro l hl
  apply List.filter_eq_nil_iff.mpr
  intro s hs
  have hmem := mem_wq_pass_cpu env key l s hs
  simp only [beq_iff_eq]
  exact fun hcc => hl (hcc ▸ hmem)

/-- Helper: over a duplicate-free CPU list containing `c`, the poller loop body
emits for `c` exactly the case-determined sample list: value 0 when offline,
the scaled policy frequency when online with a policy, nothing when online
without one. -/
lemma wq_pass_filter_mem (env : FreqEnv) (key c : Nat) :
    ∀ l, l.Nodup → c ∈ l →
      (wq_freq_pass env key l).filter (fun s => s.cpu == c)
        = (if env.cpu_online c then
            match env.cpufreq_cpu_get c with
            | some cur => [⟨c, key, freq_scale cur⟩]
            | none => []
          else [⟨c, key, 0⟩]) := by
  intro l
  induction l with
  | nil => intro _ hc; simp at hc
  | cons a rest ih =>
      intro hnd hc
      rw [wq_freq_pass, List.filter_append]
      obtain hval | hcr := List.mem_cons.mp hc
      · subst hval
        have har : c ∉ rest := (List.nodup_cons.mp hnd).1
        rw [wq_pass_filter_not_mem env key c rest har, List.append_nil]
        by_cases hon : env.cpu_online c
        · rcases hcg : env.cpufreq_cpu_get c with _ | cur <;> simp [hon, hcg]
        · simp [hon]
      · have hca : a ≠ c := by
          rintro rfl
          exact (List.nodup_cons.mp hnd).1 hcr
        have hblk : (if env.cpu_online a then
              match env.cpufreq_cpu_get a with
              | some cur => [(⟨a, key, freq_scale cur⟩ : Sample)]
              | none => []
            else [(⟨a, key, 0⟩ : Sample)]).filter (fun s => s.cpu == c) = [] := by
          by_cases hon : env.cpu_online a
          · rcases hcg : env.cpufreq_cpu_get a with _ | cur <;>
              simp [hon, hcg, hca]
          · simp [hon, hca]
        rw [hblk, List.nil_append]
        exact ih (List.nodup_cons.mp hnd).2 hcr

/-- C6: a `wq_freq_handler` pass over a duplicate-free present set emits, per
present CPU, exactly one zero-valued sample when the CPU is offline, exactly
one sample carrying the scaled current policy frequency when it is online with
a policy, and no sample when it is online without one; the pass then re-arms
the wake-up timer with the fixed 500 ms delay. -/
theorem C6_poller_pass (env : FreqEnv) (key c : Nat)
    (hnd : env.present.Nodup) (hc : c ∈ env.present) :
    (wq_freq_handler env key).1.filter (fun s => s.cpu == c)
      = (if env.cpu_online c then
          match env.cpufreq_cpu_get c with
          | some cur => [⟨c, key, freq_scale cur⟩]
          | none => []
        else [⟨c, key, 0⟩])
    ∧ (wq_freq_handler env key).2 = 500 :=
  ⟨wq_pass_filter_mem env key c env.present hnd hc, rfl⟩

/-- C6 witness: pass over present CPUs 0, 1, 2 where 0 and 1 are online, only
CPU 0 has a policy (cur = 1000 kHz), and 2 is offline; CPU 0 gets exactly the
sample with value 1000000. -/
theorem C6_poller_pass_witness :
    (wq_freq_handler ⟨[0, 1, 2], fun x => decide (x < 2),
        fun x => if x = 0 then some 1000 else none⟩ 9).1.filter
      (fun s => s.cpu == 0) = [⟨0, 9, 1000000⟩]
    ∧ (wq_freq_handler ⟨[0, 1, 2], fun x => decide (x < 2),
        fun x => if x = 0 then some 1000 else none⟩ 9).2 = 500 := by
  have h := C6_poller_pass ⟨[0, 1, 2], fun x => decide (x < 2),
    fun x => if x = 0 then some 1000 else none⟩ 9 0 (by decide) (by decide)
  exact ⟨by rw [h.1]; rfl, h.2⟩

/-- C9: for every in-range source value (an unsigned 32-bit kHz-like quantity),
the `cpu_frequency` probe forwards one sample on the translated physical CPU
tagged with the CpuFrequency key and carrying exactly `f * 1000`, and the
`gpu_frequency` probe forwards one sample tagged with the GPU key carrying
exactly `f * 1000`: the 64-bit multiplication never wraps. -/
theorem C9_freq_scaling (l2p : Nat → Nat) (r : Registry) (f cpu pcpu : Nat)
    (h : f < 2 ^ 32) :
    probe_cpu_frequency l2p r f cpu
      = [⟨l2p cpu, r.power_cpu_key.getD POWER_CPU_FREQ 0, f * 1000⟩]
    ∧ probe_gpu_frequency pcpu r f = [⟨pcpu, r.power_gpu_key, f * 1000⟩] := by
  have hmod : freq_scale f = f * 1000 := by
    unfold freq_scale
    apply Nat.mod_eq_of_lt
    have h64 : (2 : Nat) ^ 64 = 18446744073709551616 := by norm_num
    have h32 : (2 : Nat) ^ 32 = 4294967296 := by norm_num
    rw [h64]
    rw [h32] at h
    omega
  constructor <;> simp [probe_cpu_frequency, probe_gpu_frequency, hmod]

/-- C9 witness: the scaling theorem evaluated at 100000 kHz. -/
theorem C9_freq_scaling_witness :
    probe_cpu_frequency (fun c => c) ⟨[true], [5], true, 6, 4⟩ 100000 3
      = [⟨3, 5, 100000000⟩]
    ∧ probe_gpu_frequency 0 ⟨[true], [5], true, 6, 4⟩ 100000
      = [⟨0, 6, 100000000⟩] :=
  C9_freq_scaling (fun c => c) ⟨[true], [5], true, 6, 4⟩ 100000 3 0 (by decide)

/-- C10: a successful `gator_trace_power_start` stores the sentinel 0 — itself
a legitimate idle-state code — as every present CPU's last-observed idle state,
so the first `cpu_idle` event after start that reports state 0 on such a CPU is
taken for a redundant transition: nothing is forwarded (even on a wfi-capable
platform) and the stored state stays 0. -/
theorem C10_zero_sentinel_swallows_first_zero (env : StartEnv) (r : Registry)
    (prev : Nat → Nat) (ps : PollState) (l2p : Nat → Nat) (c cl : Nat)
    (h1 : env.fail_cpu_frequency = false) (h2 : env.fail_gpu_frequency = false)
    (h3 : env.fail_cpu_idle = false) (hc : c ∈ env.present) (hl : l2p cl = c) :
    (gator_trace_power_start env r prev ps).idle_prev_state c = 0
    ∧ (probe_cpu_idle armPlatform l2p
        (gator_trace_power_start env r prev ps).idle_prev_state 0 cl).2 = []
    ∧ (probe_cpu_idle armPlatform l2p
        (gator_trace_power_start env r prev ps).idle_prev_state 0 cl).1 c = 0 := by
  have hmap : (gator_trace_power_start env r prev ps).idle_prev_state c = 0 := by
    simp [gator_trace_power_start, h1, h2, h3, hc]
  refine ⟨hmap, ?_, ?_⟩ <;> simp [probe_cpu_idle, hl, hmap]

/-- C10 witness: the sentinel theorem evaluated after a failure-free start with
present CPU 2 and a prior store of 7 everywhere. -/
theorem C10_zero_sentinel_swallows_first_zero_witness :
    (gator_trace_power_start ⟨false, false, false, [2]⟩ staticRegistry
        (fun _ => 7) ⟨false, false, 0⟩).idle_prev_state 2 = 0
    ∧ (probe_cpu_idle armPlatform (fun c => c)
        (gator_trace_power_start ⟨false, false, false, [2]⟩ staticRegistry
          (fun _ => 7) ⟨false, false, 0⟩).idle_prev_state 0 2).2 = []
    ∧ (probe_cpu_idle armPlatform (fun c => c)
        (gator_trace_power_start ⟨false, false, false, [2]⟩ staticRegistry
          (fun _ => 7) ⟨false, false, 0⟩).idle_prev_state 0 2).1 2 = 0 :=
  C10_zero_sentinel_swallows_first_zero ⟨false, false, false, [2]⟩ staticRegistry
    (fun _ => 7) ⟨false, false, 0⟩ (fun c => c) 2 2 rfl rfl rfl (by decide) rfl

end Gator
